import Mathlib

set_option maxRecDepth 100000

/-!
Verification of the kevinbotv3 motor-controller protocol stack
(`src/kevinbotv3/kevinbot_mc/`): wire codec (`protocol.py`), serial
transaction connection (`connection/serial.py`), control variants
(`controls.py`), signal model (`signals.py`) and the motor facade
(`motor.py`).

Bytes are modelled as natural numbers below 256, byte strings as `List Nat`,
Python `int` as `Int`/`Nat`, and Python `float` values as `ℚ` (every claim
touches float values only through assignment and equality of ordinary
decimal values, never arithmetic, so the rational embedding is exact for
all inputs exercised here). Fallible Python code (raising `ValueError`,
`OverflowError`, `TimeoutError`, ...) is modelled with `Except`/`Option`,
and the raised exception class/message is carried as data.
-/

/-! ## Byte-string utilities (Python `int.to_bytes` / `int.from_bytes`) -/

/-- Big-endian byte encoding of `v` into exactly `n` bytes, the pure part of
Python `v.to_bytes(n, "big")` (overflow handling is in `pyToBytesBE`). -/
def toBytesBE : Nat → Nat → List Nat
  | 0, _ => []
  | n + 1, v => toBytesBE n (v / 256) ++ [v % 256]

/-- Big-endian byte decoding, Python `int.from_bytes(data, "big")`. -/
def fromBytesBE (bs : List Nat) : Nat :=
  bs.foldl (fun acc b => acc * 256 + b) 0

/-- Python `v.to_bytes(n, "big")`: raises `OverflowError` when the value does
not fit in `n` bytes. -/
def pyToBytesBE (n v : Nat) : Except String (List Nat) :=
  if v < 256 ^ n then .ok (toBytesBE n v) else .error "OverflowError: int too big to convert"

/-- Whether a modelled Python call raised an exception. -/
def isError {α : Type} : Except String α → Bool
  | .error _ => true
  | .ok _ => false

/-! ## CRC-16 (external `modbus_crc` library)

Modelled from the spec: the standard 16-bit table CRC with polynomial
0xA001 and initial value 0xFFFF. `crc16` returns the two CRC bytes
big-endian (the callers reverse them before appending), and `check_crc`
holds iff recomputing the CRC over the frame including its trailing CRC
bytes yields the zero residue. -/

/-- One bit step of the Modbus CRC-16 (polynomial 0xA001). -/
def crc16Bit (crc : Nat) : Nat :=
  if crc % 2 = 1 then (crc / 2) ^^^ 0xA001 else crc / 2

/-- Fold one input byte into the CRC state (8 bit steps). -/
def crc16Byte (crc b : Nat) : Nat :=
  crc16Bit (crc16Bit (crc16Bit (crc16Bit (crc16Bit (crc16Bit (crc16Bit (crc16Bit (crc ^^^ b))))))))

/-- The 16-bit CRC value of a byte string (init 0xFFFF). -/
def crc16core (data : List Nat) : Nat :=
  data.foldl crc16Byte 0xFFFF

/-- The two CRC bytes as returned by `modbus_crc.crc16` (big-endian). -/
def crc16bytes (data : List Nat) : List Nat :=
  [crc16core data / 256, crc16core data % 256]

/-- Frame validation, `modbus_crc.check_crc`: the CRC over the whole frame
(trailing CRC bytes included) must be the zero residue. -/
def check_crc (frame : List Nat) : Bool :=
  crc16core frame == 0

/-- Append a valid CRC trailer the way the device and the host both do:
the two bytes of `crc16` in reversed (byte-swapped) order. -/
def withCrc (msg : List Nat) : List Nat :=
  msg ++ (crc16bytes msg).reverse

/-! ## Wire codec (`protocol.py`) -/

/-- `TransactionStatusCodes` from `protocol.py`. -/
inductive TransactionStatusCodes
  | ok
  | invalidCommand
  | queueFull
  | invalidChecksum
  | invalidLength
  | invalidFormat
  | invalidProcessingError
  | timeout
  | bufferOverflow
  | invalidData
  | notReady
  | busy
  | execFailure
  | estop
  | interfaceNotActive
  | watchdogExpired
  | invalidConfigKey
  | notImplemented
deriving DecidableEq, Repr

/-- The `IntEnum` conversion `TransactionStatusCodes(b)`: `none` models the
`ValueError` raised on a byte that is not a member. -/
def byteToStatus : Nat → Option TransactionStatusCodes
  | 0x00 => some .ok
  | 0x01 => some .invalidCommand
  | 0x02 => some .queueFull
  | 0x03 => some .invalidChecksum
  | 0x04 => some .invalidLength
  | 0x05 => some .invalidFormat
  | 0x06 => some .invalidProcessingError
  | 0x07 => some .timeout
  | 0x08 => some .bufferOverflow
  | 0x09 => some .invalidData
  | 0x0A => some .notReady
  | 0x0B => some .busy
  | 0x0C => some .execFailure
  | 0x0D => some .estop
  | 0x0E => some .interfaceNotActive
  | 0x0F => some .watchdogExpired
  | 0x10 => some .invalidConfigKey
  | 0x11 => some .notImplemented
  | _ => none

/-- `TransactionDataType` from `protocol.py`. -/
inductive TransactionDataType
  | null
  | reserved
  | float
  | double
  | signedInt
  | unsignedInt
  | boolean
  | string
  | packed
deriving DecidableEq, Repr

/-- The `IntEnum` conversion `TransactionDataType(b)`: `none` models the
`ValueError` raised on a byte that is not a member. -/
def byteToDataType : Nat → Option TransactionDataType
  | 0xFF => some .null
  | 0xFE => some .reserved
  | 0xFC => some .float
  | 0xFB => some .double
  | 0xFA => some .signedInt
  | 0xF9 => some .unsignedInt
  | 0xF8 => some .boolean
  | 0xF7 => some .string
  | 0xF6 => some .packed
  | _ => none

/-- The concrete `TransactionData` subclasses of `protocol.py` as a sum:
`EmptyTransactionData`, `FloatTransactionData`,
`UnsignedIntegerTransactionData`, `StringTransactionData`,
`BooleanTransactionData`, `PackedTransactionData`. Float values are
modelled as `ℚ` and CBOR payloads of `PackedTransactionData` by their raw
bytes (no claim inspects packed contents). -/
inductive TransactionData
  | empty
  | float (value : ℚ)
  | uint (value : Int) (size : Nat)
  | str (value : String)
  | boolean (value : Bool)
  | packed (raw : List Nat)
deriving DecidableEq

/-- `isinstance(d, UnsignedIntegerTransactionData)`. -/
def TransactionData.isUint : TransactionData → Bool
  | .uint _ _ => true
  | _ => false

/-- `isinstance(d, FloatTransactionData)`. -/
def TransactionData.isFloat : TransactionData → Bool
  | .float _ => true
  | _ => false

/-- `isinstance(d, EmptyTransactionData)`. -/
def TransactionData.isEmpty : TransactionData → Bool
  | .empty => true
  | _ => false

/-- `isinstance(d, StringTransactionData)`. -/
def TransactionData.isStr : TransactionData → Bool
  | .str _ => true
  | _ => false

/-- `isinstance(d, BooleanTransactionData)`. -/
def TransactionData.isBoolean : TransactionData → Bool
  | .boolean _ => true
  | _ => false

/-- The dataclass `TransactionResult` from `protocol.py`. -/
structure TransactionResult where
  controlWord : Nat
  data : TransactionData
  status : TransactionStatusCodes
deriving DecidableEq

/-- `UnsignedIntegerTransactionData(value, size).generate()` from
`protocol.py` lines 79-107: validates size and range (raising `ValueError`,
carried as `Except.error`), then returns the tag `0xF9` and the big-endian
bytes. -/
def UnsignedIntegerTransactionData.generate (value : Int) (size : Nat) :
    Except String (Nat × List Nat) :=
  if size ≠ 1 ∧ size ≠ 2 ∧ size ≠ 4 then
    .error "ValueError: Unsigned integer transaction data size must be 1, 2, or 4 (bytes)"
  else if value < 0 then
    .error "ValueError: Unsigned integer transaction data value must be non-negative"
  else if size = 1 ∧ value > 255 then
    .error "ValueError: Unsigned integer transaction data value must be 255 when bytes=1"
  else if size = 2 ∧ value > 65535 then
    .error "ValueError: Unsigned integer transaction data value must be 65535 when bytes=2"
  else if size = 4 ∧ value > 4294967295 then
    .error "ValueError: Unsigned integer transaction data value must be 4294967295 when bytes=4"
  else
    .ok (0xF9, toBytesBE size value.toNat)

/-- Whether a byte is a UTF-8 continuation byte (0x80-0xBF). -/
def utf8Cont (b : Nat) : Bool :=
  0x80 ≤ b && b < 0xC0

/-- UTF-8 decoding used by `data.decode("utf-8")` in `make_response_data`.
Modelled from the spec (raw UTF-8 bytes, no terminator); sequences of
one to four bytes with continuation checking. Rejection of overlong forms
and surrogates is elided — no claim exercises string payload decoding. -/
def utf8Decode : List Nat → Option (List Char)
  | [] => some []
  | b :: rest =>
    if b < 0x80 then
      (utf8Decode rest).map (fun cs => Char.ofNat b :: cs)
    else if b < 0xC2 then
      none
    else if b < 0xE0 then
      match rest with
      | c1 :: rest1 =>
        if utf8Cont c1 then
          (utf8Decode rest1).map (fun cs => Char.ofNat ((b % 32) * 64 + c1 % 64) :: cs)
        else none
      | _ => none
    else if b < 0xF0 then
      match rest with
      | c1 :: c2 :: rest2 =>
        if utf8Cont c1 && utf8Cont c2 then
          (utf8Decode rest2).map
            (fun cs => Char.ofNat ((b % 16) * 4096 + (c1 % 64) * 64 + c2 % 64) :: cs)
        else none
      | _ => none
    else if b < 0xF5 then
      match rest with
      | c1 :: c2 :: c3 :: rest3 =>
        if utf8Cont c1 && utf8Cont c2 && utf8Cont c3 then
          (utf8Decode rest3).map
            (fun cs =>
              Char.ofNat ((b % 8) * 262144 + (c1 % 64) * 4096 + (c2 % 64) * 64 + c3 % 64) :: cs)
        else none
      | _ => none
    else none

/-- IEEE-754 binary32 decoding of 4 big-endian bytes into its exact rational
value, the pure content of `struct.unpack(">f", data)`. NaN and the two
infinities are not elements of `ℚ` and are mapped to 0; no claim exercises
float payload decoding. -/
def unpackFloat32 (bs : List Nat) : ℚ :=
  let w : Nat := fromBytesBE bs
  let sign : Nat := w / 2 ^ 31
  let ex : Nat := w / 2 ^ 23 % 256
  let frac : Nat := w % 2 ^ 23
  let mag : ℚ :=
    if ex = 0 then (frac : ℚ) * (2 : ℚ) ^ (-(149 : Int))
    else if ex = 255 then 0
    else ((2 ^ 23 + frac : Nat) : ℚ) * (2 : ℚ) ^ ((ex : Int) - 150)
  if sign = 1 then -mag else mag

/-- `make_response_data` from `protocol.py` lines 147-162: dispatch on the
data type tag; any tag without an explicit case falls to the default branch
returning `EmptyTransactionData`. Decoding failures of the string and float
branches (exceptions of `bytes.decode` / `struct.unpack`) are carried as
`Except.error`; the CBOR branch is modelled as the raw payload. -/
def make_response_data (data_type : TransactionDataType) (data : List Nat) :
    Except String TransactionData :=
  match data_type with
  | .unsignedInt => .ok (.uint (Int.ofNat (fromBytesBE data)) data.length)
  | .packed => .ok (.packed data)
  | .string =>
    match utf8Decode data with
    | some cs => .ok (.str (String.mk cs))
    | none => .error "UnicodeDecodeError"
  | .boolean => .ok (.boolean (fromBytesBE data == 1))
  | .float =>
    if data.length = 4 then .ok (.float (unpackFloat32 data))
    else .error "struct.error: unpack requires a buffer of 4 bytes"
  | _ => .ok .empty

/-- `make_transaction_data` from `protocol.py` lines 165-177, applied to the
result `(tag, payload)` of `data.generate()`: marker `0x02`, tag byte,
big-endian control word, big-endian payload length, payload, big-endian
uid, then the byte-swapped CRC-16. `Except.error` carries the
`OverflowError` of `int.to_bytes` on out-of-range fields. -/
def make_transaction_data (control_word tag : Nat) (payload : List Nat) (uid : Nat) :
    Except String (List Nat) :=
  match pyToBytesBE 1 tag, pyToBytesBE 2 control_word, pyToBytesBE 2 payload.length,
      pyToBytesBE 2 uid with
  | .ok tagB, .ok cwB, .ok lenB, .ok uidB =>
    let msg := 0x02 :: (tagB ++ cwB ++ lenB ++ payload ++ uidB)
    .ok (msg ++ (crc16bytes msg).reverse)
  | .error e, _, _, _ => .error e
  | _, .error e, _, _ => .error e
  | _, _, .error e, _ => .error e
  | _, _, _, .error e => .error e

/-! ## Serial connection (`connection/serial.py`) -/

/-- `SerialUidController.new`: increment the 16-bit uid counter modulo
65536 and return the new value (the returned value is also the new counter
state). -/
def SerialUidController.new (uid : Nat) : Nat :=
  (uid + 1) % 65536

/-- The dict built by `_try_parse_next_frame` for a queued frame: either a
response frame (marker `0x01`) or an unsolicited frame (marker `0x02`). -/
inductive ParsedFrame
  | response (status : TransactionStatusCodes) (data_type : TransactionDataType)
      (control_word : Nat) (data : List Nat) (uid : Nat)
  | unsolicited (data_type : TransactionDataType) (control_word : Nat) (data : List Nat)
deriving DecidableEq, Repr

/-- `SerialMotorConnection._try_parse_next_frame` from `serial.py` lines
103-201. Returns `(parsed?, frame_type?, bytes_consumed)`. A failed CRC
check, an unknown start marker, and an exception while building the parsed
dict (the `IntEnum` conversions raising `ValueError` on unknown status or
data-type bytes) all yield `(none, none, 1)`; an incomplete frame yields
`(none, none, 0)`. -/
def tryParseNextFrame (buf : List Nat) : Option ParsedFrame × Option Nat × Nat :=
  if buf.length < 8 then (none, none, 0)
  else
    let start_marker := buf.getD 0 0
    if start_marker = 0x01 then
      -- Response frame: [0x01][status][data_type][control_word:2][data_len:2][data][uid:2][crc:2]
      let status := buf.getD 1 0
      let data_type := buf.getD 2 0
      let control_word := buf.getD 3 0 * 256 + buf.getD 4 0
      let data_len := buf.getD 5 0 * 256 + buf.getD 6 0
      let total_len := 7 + data_len + 4
      if buf.length < total_len then (none, none, 0)
      else
        let frame := buf.take total_len
        if check_crc frame then
          let data_payload := (frame.drop 7).take data_len
          let uid := frame.getD (7 + data_len) 0 * 256 + frame.getD (8 + data_len) 0
          match byteToStatus status, byteToDataType data_type with
          | some st, some dt =>
            (some (.response st dt control_word data_payload uid), some 0x01, total_len)
          | _, _ => (none, none, 1)
        else (none, none, 1)
    else if start_marker = 0x02 then
      -- Unsolicited frame: [0x02][data_type][control_word:2][data_len:2][data][crc:2]
      let data_type := buf.getD 1 0
      let control_word := buf.getD 2 0 * 256 + buf.getD 3 0
      let data_len := buf.getD 4 0 * 256 + buf.getD 5 0
      let total_len := 6 + data_len + 2
      if buf.length < total_len then (none, none, 0)
      else
        let frame := buf.take total_len
        if check_crc frame then
          let data_payload := (frame.drop 6).take data_len
          match byteToDataType data_type with
          | some dt => (some (.unsolicited dt control_word data_payload), some 0x02, total_len)
          | none => (none, none, 1)
        else (none, none, 1)
    else (none, none, 1)

/-- The outcome of one `_parse_all_frames` call: the frames appended to the
response and unsolicited queues, the remaining buffer, and the number of
loop iterations performed. -/
structure ParseResult where
  responses : List ParsedFrame
  unsolicited : List ParsedFrame
  buffer : List Nat
  iterations : Nat
deriving DecidableEq, Repr

/-- The loop body of `SerialMotorConnection._parse_all_frames` (`serial.py`
lines 70-101), with the remaining iteration budget
(`max_iterations - iterations`) as structural fuel. -/
def parseAllAux (accR accU : List ParsedFrame) (iters : Nat) :
    Nat → List Nat → ParseResult
  | 0, buf => ⟨accR, accU, buf, iters⟩
  | fuel + 1, buf =>
    if buf.length < 8 then ⟨accR, accU, buf, iters⟩
    else
      match tryParseNextFrame buf with
      | (_, _, 0) => ⟨accR, accU, buf, iters + 1⟩
      | (none, _, _) => parseAllAux accR accU (iters + 1) fuel (buf.drop 1)
      | (some p, t, consumed) =>
        if t = some 0x01 then
          parseAllAux (accR ++ [p]) accU (iters + 1) fuel (buf.drop consumed)
        else if t = some 0x02 then
          parseAllAux accR (accU ++ [p]) (iters + 1) fuel (buf.drop consumed)
        else
          parseAllAux accR accU (iters + 1) fuel (buf.drop consumed)

/-- `SerialMotorConnection._parse_all_frames`: parse every complete frame
from the buffer head, with `max_iterations = len(buffer)`. -/
def parse_all_frames (buf : List Nat) : ParseResult :=
  parseAllAux [] [] 0 buf.length buf

/-- The frame bytes assembled inline by `SerialMotorConnection.execute`
(`serial.py` lines 326-337), applied to the result `(tag, payload)` of
`data.generate()`: marker `0x02`, tag byte, big-endian control word,
big-endian payload length, payload, big-endian uid, then the byte-swapped
CRC-16. -/
def assembleExecuteFrame (control tag : Nat) (payload : List Nat) (uid : Nat) :
    Except String (List Nat) :=
  match pyToBytesBE 1 tag, pyToBytesBE 2 control, pyToBytesBE 2 payload.length,
      pyToBytesBE 2 uid with
  | .ok tagB, .ok cwB, .ok lenB, .ok uidB =>
    let msg := 0x02 :: (tagB ++ cwB ++ lenB ++ payload ++ uidB)
    .ok (msg ++ (crc16bytes msg).reverse)
  | .error e, _, _, _ => .error e
  | _, .error e, _, _ => .error e
  | _, _, .error e, _ => .error e
  | _, _, _, .error e => .error e

/-- The exception a run of `SerialMotorConnection.execute` with no response
ends in. -/
inductive ExecuteError
  | timeoutError (msg : String)
  | overflowError (msg : String)
deriving DecidableEq

/-- The attempt loop of `SerialMotorConnection.execute` when no response is
ever delivered: for each of the remaining attempts, mint a fresh uid with
`SerialUidController.new`, assemble and send the frame, and time out.
Returns the minted uids, the frames written to the serial port, and the
exception (if any) that aborted the loop early. -/
def executeAttemptsAux (control tag : Nat) (payload : List Nat) :
    Nat → Nat → List Nat × List (List Nat) × Option ExecuteError
  | _, 0 => ([], [], none)
  | uidState, n + 1 =>
    let uid := SerialUidController.new uidState
    match assembleExecuteFrame control tag payload uid with
    | .error e => ([uid], [], some (.overflowError e))
    | .ok frame =>
      let rest := executeAttemptsAux control tag payload uid n
      (uid :: rest.1, frame :: rest.2.1, rest.2.2)

/-- Everything observable about a no-response run of `execute`: the minted
uids, the sent frames, and the raised exception. -/
structure ExecuteTrace where
  uids : List Nat
  frames : List (List Nat)
  raised : ExecuteError
deriving DecidableEq

/-- `SerialMotorConnection.execute(control, data, retry, timeout)`
(`serial.py` lines 312-388) specialised to the case where no response is
ever delivered for any minted uid, applied to the result `(tag, payload)`
of `data.generate()` and the uid counter state `uidState`: every wait
times out, so the loop performs `retry + 1` attempts and then raises
`TimeoutError(f"No response after {retry + 1} retries")`. -/
def executeNoResponse (control tag : Nat) (payload : List Nat) (retry : Nat)
    (uidState : Nat) : ExecuteTrace :=
  let r := executeAttemptsAux control tag payload uidState (retry + 1)
  { uids := r.1
    frames := r.2.1
    raised := r.2.2.getD
      (.timeoutError ("No response after " ++ toString (retry + 1) ++ " retries")) }

/-! ## Control variants (`controls.py`) -/

/-- The concrete `MotorControl` subclasses of `controls.py` (the Python
class of an instance). -/
inductive ControlKind
  | unknown
  | neutral
  | coast
  | brake
  | torque
  | velocity
deriving DecidableEq, Repr

/-- The class-level `index` attribute of each `MotorControl` subclass. -/
def ControlKind.index : ControlKind → Int
  | .unknown => -1
  | .neutral => 0
  | .coast => 1
  | .brake => 2
  | .torque => 5
  | .velocity => 6

/-- A `MotorControl` instance: its Python class and its `target` field
(`0.0` unless set by the `VelocityControl`/`TorqueControl` constructor). -/
structure MotorControl where
  kind : ControlKind
  target : ℚ
deriving DecidableEq, Repr

/-- The `index` attribute of a `MotorControl` instance. -/
def MotorControl.index (c : MotorControl) : Int :=
  c.kind.index

/-- `MotorControl.__eq__` from `controls.py` lines 10-11:
`self.index == other.index and self.target == other.target`. -/
def MotorControl.eq (a b : MotorControl) : Bool :=
  a.index == b.index && a.target == b.target

/-- `UnknownControl()`. -/
def UnknownControl : MotorControl := ⟨.unknown, 0⟩

/-- `NeutralControl()`. -/
def NeutralControl : MotorControl := ⟨.neutral, 0⟩

/-- `CoastControl()`. -/
def CoastControl : MotorControl := ⟨.coast, 0⟩

/-- `BrakeControl()`. -/
def BrakeControl : MotorControl := ⟨.brake, 0⟩

/-- `VelocityControl(velocity)`. -/
def VelocityControl (velocity : ℚ) : MotorControl := ⟨.velocity, velocity⟩

/-- `TorqueControl(torque)`. -/
def TorqueControl (torque : ℚ) : MotorControl := ⟨.torque, torque⟩

/-! ## Signal model (`signals.py`) -/

/-- `AngleState`. -/
structure AngleState where
  rads : ℚ
deriving DecidableEq, Repr

/-- `VelocityState`. -/
structure VelocityState where
  rad_s : ℚ
deriving DecidableEq, Repr

/-- `CurrentState`. -/
structure CurrentState where
  i_q : ℚ
  i_d : ℚ
deriving DecidableEq, Repr

/-- `VoltageState`. -/
structure VoltageState where
  v_q : ℚ
  v_d : ℚ
  v_bemf : ℚ
  v_in : ℚ
deriving DecidableEq, Repr

/-- `PhaseStates`. -/
structure PhaseStates where
  u_a : ℚ
  u_b : ℚ
  u_c : ℚ
  i_a : ℚ
  i_b : ℚ
  i_c : ℚ
deriving DecidableEq, Repr

/-- `MotorSignals` from `signals.py` lines 33-41, with the dataclass
default values. -/
structure MotorSignals where
  target : ℚ := 0
  angle : AngleState := ⟨0⟩
  velocity : VelocityState := ⟨0⟩
  currents : CurrentState := ⟨0, 0⟩
  voltages : VoltageState := ⟨0, 0, 0, 0⟩
  phases : PhaseStates := ⟨0, 0, 0, 0, 0, 0⟩
deriving DecidableEq, Repr

/-! ## Motor controller facade (`motor.py`)

The facade talks to the connection only through
`connection.execute(control_word, data)`; those calls are modelled by an
oracle giving the `TransactionResult` the connection returns for each
control word, so the facade functions are pure state transformers. -/

/-- The semantic-version triple of the `semver` library, restricted to the
`major.minor.patch` core used by this driver. -/
def MAX_VERSION : Nat × Nat × Nat := (2025, 11, 9999)

/-- Numeric-core comparison `a < b` of `semver.Version` (lexicographic on
major, minor, patch). -/
def versionLt (a b : Nat × Nat × Nat) : Bool :=
  a.1 < b.1 || (a.1 = b.1 && (a.2.1 < b.2.1 || (a.2.1 = b.2.1 && a.2.2 < b.2.2)))

/-- Parse a decimal digit string. -/
def digitsToNat (cs : List Char) : Option Nat :=
  if cs ≠ [] && cs.all (fun c => c.isDigit) then
    some (cs.foldl (fun acc c => acc * 10 + (c.toNat - 48)) 0)
  else none

/-- `semver.Version.parse` restricted to the plain `major.minor.patch` core
(prerelease and build metadata are not exercised by any claim); `none`
models the `ValueError` raised on a malformed version string. -/
def semverParse (s : String) : Option (Nat × Nat × Nat) :=
  match (s.toList.splitOn '.').map digitsToNat with
  | [some a, some b, some c] => some (a, b, c)
  | _ => none

/-- How a run of `KevinbotMC.start` in real (non-simulated) mode ends. -/
inductive StartOutcome
  | ok
  | initFault (msg : String)
  | valueError (msg : String)
deriving DecidableEq

/-- Whether the outcome is a raised `MotorInitializationFault`. -/
def StartOutcome.isInitFault : StartOutcome → Bool
  | .initFault _ => true
  | _ => false

/-- Everything observable about a real-mode `KevinbotMC.start` run: the
outcome, whether `self.stop()` (and hence `connection.stop()`) was called,
and whether the watchdog-feeder thread was started. -/
structure StartResult where
  outcome : StartOutcome
  connectionStopped : Bool
  watchdogStarted : Bool
deriving DecidableEq

/-- `KevinbotMC.start` from `motor.py` lines 68-105 in real (non-simulated)
mode, given the responses the connection returns for the three handshake
transactions (name `0x7FF8`, firmware `0x7FFC`, watchdog `0x4000`): the
connection is started, the three queries run in order, each unexpected
response data type raises `MotorInitializationFault` immediately, the
firmware string is parsed as a semantic version, and a version above
`MAX_VERSION` stops the connection and raises; on success the
watchdog-feeder thread is started. -/
def KevinbotMC.start (nameResp fwResp wdResp : TransactionResult) : StartResult :=
  if nameResp.data.isStr = false then
    ⟨.initFault "User-defined name transaction didn't return the correct data", false, false⟩
  else
    match fwResp.data with
    | .str fwStr =>
      match semverParse fwStr with
      | none => ⟨.valueError "semver parse error", false, false⟩
      | some fw =>
        if wdResp.data.isUint = false then
          ⟨.initFault "Watchdog timeout transaction didn't return the correct data", false, false⟩
        else if versionLt MAX_VERSION fw then
          ⟨.initFault "Motor firmware is higher than the maximum supported version", true, false⟩
        else
          ⟨.ok, false, true⟩
    | _ => ⟨.initFault "Firmware version transaction didn't return the correct data", false, false⟩

/-- `KevinbotMC.enable` / `KevinbotMC.disable` (`motor.py` lines 113-127),
given the response the connection returns for the Boolean transaction on
control word `0x0004` with the desired value: on a Boolean response with
OK status the echoed value is cached and returned, otherwise the cache is
left unchanged and `None` is returned. Returns
`(returned value, new cached enabled flag, sent transactions)`. -/
def KevinbotMC.setEnabled (desired : Bool) (resp : TransactionResult) (enabledCache : Bool) :
    Option Bool × Bool × List (Nat × TransactionData) :=
  let sent := [(0x0004, TransactionData.boolean desired)]
  if resp.data.isBoolean = false || resp.status ≠ .ok then
    (none, enabledCache, sent)
  else
    match resp.data with
    | .boolean v => (some v, v, sent)
    | _ => (none, enabledCache, sent)

/-- The facade state read and written by `KevinbotMC.set`: the cached
current control and the signal model's `target` field. -/
structure MCControlState where
  currentControl : MotorControl
  signalsTarget : ℚ
deriving DecidableEq, Repr

/-- `KevinbotMC.set(control)` from `motor.py` lines 129-148, with the
connection's responses given by an oracle from control word to
`TransactionResult`. In real mode: the mode-change transaction `0x0006`
(unsigned 1-byte, whose `generate()` runs inside `execute` before any
write) when the new control's class differs from the cached one's, the
target-change transaction `0x0005` when the targets differ, and the apply
transaction `0x0007` when the controls differ under `MotorControl.__eq__`;
a response of unexpected data type raises `MotorCommandFault`. Afterwards
(and in simulated mode immediately) the cached control and
`signals.target` are set from the argument. Returns the outcome together
with the list of control words actually sent. -/
def KevinbotMC.set (isSim : Bool) (oracle : Nat → TransactionResult)
    (control : MotorControl) (st : MCControlState) :
    Except String MCControlState × List Nat :=
  if isSim then
    (.ok ⟨control, control.target⟩, [])
  else
    let step1 : Except String Unit × List Nat :=
      if control.kind ≠ st.currentControl.kind then
        match UnsignedIntegerTransactionData.generate control.index 1 with
        | .error e => (.error e, [])
        | .ok _ =>
          if (oracle 0x0006).data.isUint then (.ok (), [0x0006])
          else (.error "MotorCommandFault: control mode", [0x0006])
      else (.ok (), [])
    match step1 with
    | (.error e, s1) => (.error e, s1)
    | (.ok _, s1) =>
      let step2 : Except String Unit × List Nat :=
        if control.target ≠ st.currentControl.target then
          if (oracle 0x0005).data.isFloat then (.ok (), [0x0005])
          else (.error "MotorCommandFault: control target", [0x0005])
        else (.ok (), [])
      match step2 with
      | (.error e, s2) => (.error e, s1 ++ s2)
      | (.ok _, s2) =>
        let step3 : Except String Unit × List Nat :=
          if MotorControl.eq control st.currentControl = false then
            if (oracle 0x0007).data.isEmpty then (.ok (), [0x0007])
            else (.error "MotorCommandFault: control apply", [0x0007])
          else (.ok (), [])
        match step3 with
        | (.error e, s3) => (.error e, s1 ++ s2 ++ s3)
        | (.ok _, s3) => (.ok ⟨control, control.target⟩, s1 ++ s2 ++ s3)

/-- The control words `0x0002`-`0x000F` present in the `handlers` dict of
`KevinbotMC.signal_handler`. -/
def signalWords : List Nat :=
  [2, 3, 4, 5, 6, 7, 8, 9, 10, 11, 12, 13, 14, 15]

/-- `KevinbotMC.signal_handler(word, data)` from `motor.py` lines 171-199:
an unmapped word or a non-Float payload leaves the signal model untouched;
otherwise the field mapped to the word is set to the payload value. -/
def KevinbotMC.signal_handler (word : Nat) (data : TransactionData)
    (s : MotorSignals) : MotorSignals :=
  if word ∉ signalWords then s
  else
    match data with
    | .float v =>
      match word with
      | 2 => { s with angle := ⟨v⟩ }
      | 3 => { s with velocity := ⟨v⟩ }
      | 4 => { s with currents := { s.currents with i_q := v } }
      | 5 => { s with currents := { s.currents with i_d := v } }
      | 6 => { s with voltages := { s.voltages with v_q := v } }
      | 7 => { s with voltages := { s.voltages with v_d := v } }
      | 8 => { s with voltages := { s.voltages with v_bemf := v } }
      | 9 => { s with voltages := { s.voltages with v_in := v } }
      | 10 => { s with phases := { s.phases with u_a := v } }
      | 11 => { s with phases := { s.phases with u_b := v } }
      | 12 => { s with phases := { s.phases with u_c := v } }
      | 13 => { s with phases := { s.phases with i_a := v } }
      | 14 => { s with phases := { s.phases with i_b := v } }
      | 15 => { s with phases := { s.phases with i_c := v } }
      | _ => s
    | _ => s

/-! ## Concrete frames used in scenario theorems -/

/-- Flip the last byte of a frame, corrupting its trailing CRC byte. -/
def corruptLast (f : List Nat) : List Nat :=
  f.dropLast ++ [(f.getLastD 0 + 1) % 256]

/-- A well-formed unsolicited frame: tag Float, control word `0x0003`,
payload the 4 bytes of `3.0f`. -/
def goodFrame : List Nat :=
  withCrc [0x02, 0xFC, 0x00, 0x03, 0x00, 0x04, 0x40, 0x40, 0x00, 0x00]

/-- A well-formed unsolicited frame: tag Float, control word `0x0002`,
payload the 4 bytes of `1.5f`. Its control-word low byte `0x02` makes the
resynchronization scan read a bogus frame header from the corrupted
frame's remnants. -/
def goodStallFrame : List Nat :=
  withCrc [0x02, 0xFC, 0x00, 0x02, 0x00, 0x04, 0x3F, 0xC0, 0x00, 0x00]

/-- A well-formed unsolicited frame whose type tag `0xFF` (NULL) is a
member of `TransactionDataType` but not a supported value tag. -/
def nullTagFrame : List Nat :=
  withCrc [0x02, 0xFF, 0x00, 0x10, 0x00, 0x00]

/-- A CRC-valid unsolicited frame whose type tag byte `0x00` is not a
member of `TransactionDataType` at all. -/
def rawTagFrame : List Nat :=
  withCrc [0x02, 0x00, 0x00, 0x10, 0x00, 0x00]

/-! ## Helper lemmas -/

theorem toBytesBE_length (n : Nat) : ∀ v, (toBytesBE n v).length = n := by
  induction n with
  | zero => intro v; rfl
  | succ n ih =>
    intro v
    simp [toBytesBE, ih]

theorem fromBytesBE_append_singleton (xs : List Nat) (b : Nat) :
    fromBytesBE (xs ++ [b]) = fromBytesBE xs * 256 + b := by
  simp [fromBytesBE, List.foldl_append]

theorem fromBytesBE_toBytesBE (n : Nat) : ∀ v, v < 256 ^ n →
    fromBytesBE (toBytesBE n v) = v := by
  induction n with
  | zero =>
    intro v hv
    interval_cases v
    rfl
  | succ n ih =>
    intro v hv
    have hdiv : v / 256 < 256 ^ n := by
      rw [Nat.div_lt_iff_lt_mul (by norm_num)]
      calc v < 256 ^ (n + 1) := hv
        _ = 256 ^ n * 256 := by ring
    rw [toBytesBE, fromBytesBE_append_singleton, ih _ hdiv]
    omega

theorem ControlKind.index_injective (a b : ControlKind) (h : a.index = b.index) : a = b := by
  cases a <;> cases b <;> simp_all [ControlKind.index]

/-! ## Claim theorems -/

/-- C10: for every control word, every `(tag, payload)` a successful
`data.generate()` can return, and every uid, the frame bytes assembled
inline by `SerialMotorConnection.execute` are identical to the bytes
produced by `protocol.make_transaction_data` — the two frame encoders in
the codebase are equivalent (and they fail identically on out-of-range
fields). -/
theorem frame_encoders_equivalent :
    ∀ (control tag : Nat) (payload : List Nat) (uid : Nat),
      assembleExecuteFrame control tag payload uid =
        make_transaction_data control tag payload uid :=
  fun _ _ _ _ => rfl

/-- C8: two `MotorControl` instances are equal under `__eq__` iff their
`index` and `target` fields match; `VelocityControl(3.0)` equals
`VelocityControl(3.0)` but differs from `VelocityControl(3.1)` (modelled
as 31/10) and from `TorqueControl(3.0)`; and the variant indices are
Unknown=-1, Neutral=0, Coast=1, Brake=2, Torque=5, Velocity=6. -/
theorem motorcontrol_eq_iff :
    (∀ a b : MotorControl,
      MotorControl.eq a b = true ↔ (a.index = b.index ∧ a.target = b.target)) ∧
    MotorControl.eq (VelocityControl 3) (VelocityControl 3) = true ∧
    MotorControl.eq (VelocityControl 3) (VelocityControl (31 / 10)) = false ∧
    MotorControl.eq (VelocityControl 3) (TorqueControl 3) = false ∧
    UnknownControl.index = -1 ∧ NeutralControl.index = 0 ∧
    CoastControl.index = 1 ∧ BrakeControl.index = 2 ∧
    (TorqueControl 3).index = 5 ∧ (VelocityControl 3).index = 6 := by
  refine ⟨fun a b => ?_, ?_, ?_, ?_, rfl, rfl, rfl, rfl, rfl, rfl⟩
  · simp [MotorControl.eq]
  · simp [MotorControl.eq]
  · simp only [MotorControl.eq, VelocityControl, MotorControl.index, ControlKind.index,
      Bool.and_eq_false_iff, beq_eq_false_iff_ne]
    norm_num
  · simp only [MotorControl.eq, VelocityControl, TorqueControl, MotorControl.index,
      ControlKind.index, Bool.and_eq_false_iff, beq_eq_false_iff_ne]
    norm_num

/-- C9: `signal_handler` with word `0x0002` and Float data `v` sets
`signals.angle.rads` to `v` and leaves every other field of the signal
model unchanged; a word outside `0x0002`-`0x000F` or a non-Float payload
leaves the whole signal model unchanged. -/
theorem signal_handler_effect :
    (∀ (v : ℚ) (s : MotorSignals),
      (KevinbotMC.signal_handler 2 (.float v) s).angle.rads = v ∧
      (KevinbotMC.signal_handler 2 (.float v) s).target = s.target ∧
      (KevinbotMC.signal_handler 2 (.float v) s).velocity = s.velocity ∧
      (KevinbotMC.signal_handler 2 (.float v) s).currents = s.currents ∧
      (KevinbotMC.signal_handler 2 (.float v) s).voltages = s.voltages ∧
      (KevinbotMC.signal_handler 2 (.float v) s).phases = s.phases) ∧
    (∀ (word : Nat), (word < 2 ∨ 15 < word) →
      ∀ (data : TransactionData) (s : MotorSignals),
        KevinbotMC.signal_handler word data s = s) ∧
    (∀ (word : Nat) (data : TransactionData) (s : MotorSignals),
      data.isFloat = false → KevinbotMC.signal_handler word data s = s) := by
  refine ⟨fun v s => ?_, fun word hw data s => ?_, fun word data s hd => ?_⟩
  · simp [KevinbotMC.signal_handler, signalWords]
  · have : word ∉ signalWords := by
      simp only [signalWords, List.mem_cons, List.not_mem_nil, or_false]
      push_neg
      omega
    simp [KevinbotMC.signal_handler, this]
  · by_cases hmem : word ∈ signalWords
    · cases data <;> simp_all [KevinbotMC.signal_handler, TransactionData.isFloat]
    · simp [KevinbotMC.signal_handler, hmem]

/-- C9 witness: an unsolicited Float payload `1.57` (modelled 157/100) on
word `0x0002` lands in `angle.rads` and touches nothing else. -/
theorem signal_handler_effect_witness :
    (KevinbotMC.signal_handler 2 (.float (157 / 100)) {}).angle.rads = 157 / 100 ∧
    (KevinbotMC.signal_handler 3 (.boolean true) {}) = ({} : MotorSignals) := by
  exact ⟨(signal_handler_effect.1 (157 / 100) {}).1,
    signal_handler_effect.2.2 3 (.boolean true) {} (by decide)⟩

/-- C7: `enable()` and `disable()` each send exactly one Boolean
transaction on control word `0x0004` carrying the desired value; a Boolean
response with OK status makes the echoed value (not the requested one) the
new cached enabled flag and the return value; any other response type or a
non-OK status leaves the cache unchanged and returns `None`. -/
theorem enable_disable_echo :
    ∀ (desired : Bool) (resp : TransactionResult) (cache : Bool),
      (KevinbotMC.setEnabled desired resp cache).2.2 =
        [(0x0004, TransactionData.boolean desired)] ∧
      (∀ v : Bool, resp.data = .boolean v → resp.status = .ok →
        (KevinbotMC.setEnabled desired resp cache).1 = some v ∧
        (KevinbotMC.setEnabled desired resp cache).2.1 = v) ∧
      (resp.data.isBoolean = false ∨ resp.status ≠ .ok →
        (KevinbotMC.setEnabled desired resp cache).1 = none ∧
        (KevinbotMC.setEnabled desired resp cache).2.1 = cache) := by
  intro desired resp cache
  refine ⟨?_, fun v hv hs => ?_, fun h => ?_⟩
  · unfold KevinbotMC.setEnabled
    split
    · rfl
    · split <;> rfl
  · simp [KevinbotMC.setEnabled, hv, hs, TransactionData.isBoolean]
  · rcases h with h | h
    · cases hd : resp.data <;> simp_all [KevinbotMC.setEnabled, TransactionData.isBoolean]
    · simp [KevinbotMC.setEnabled, h]

/-- C7 witness: an OK Boolean response echoing `false` to an `enable`
request caches and returns the echoed `false`; a non-Boolean response
leaves a `true` cache unchanged and returns `None`. -/
theorem enable_disable_echo_witness :
    (KevinbotMC.setEnabled true ⟨4, .boolean false, .ok⟩ true).1 = some false ∧
    (KevinbotMC.setEnabled true ⟨4, .boolean false, .ok⟩ true).2.1 = false ∧
    (KevinbotMC.setEnabled false ⟨4, .empty, .ok⟩ true).1 = none ∧
    (KevinbotMC.setEnabled false ⟨4, .empty, .ok⟩ true).2.1 = true := by
  refine ⟨((enable_disable_echo true ⟨4, .boolean false, .ok⟩ true).2.1 false rfl rfl).1, ?_, ?_, ?_⟩
  · exact ((enable_disable_echo true ⟨4, .boolean false, .ok⟩ true).2.1 false rfl rfl).2
  · exact ((enable_disable_echo false ⟨4, .empty, .ok⟩ true).2.2 (Or.inl rfl)).1
  · exact ((enable_disable_echo false ⟨4, .empty, .ok⟩ true).2.2 (Or.inl rfl)).2

/-- C3: for sizes 1, 2, 4 and every value in range, an unsigned-integer
`generate()` succeeds with tag `0xF9` and exactly `size` big-endian
payload bytes, and `make_response_data(UNSIGNED_INT, payload)` recovers
the value (and size); `generate()` raises `ValueError` before any
transmission whenever the size is not 1, 2 or 4, the value is negative, or
the value exceeds the size-bit unsigned range. -/
theorem uint_roundtrip :
    (∀ (size v : Nat), (size = 1 ∨ size = 2 ∨ size = 4) → v < 2 ^ (8 * size) →
      UnsignedIntegerTransactionData.generate v size = .ok (0xF9, toBytesBE size v) ∧
      (toBytesBE size v).length = size ∧
      make_response_data .unsignedInt (toBytesBE size v) = .ok (.uint v size)) ∧
    (∀ (v : Int) (size : Nat), size ≠ 1 → size ≠ 2 → size ≠ 4 →
      isError (UnsignedIntegerTransactionData.generate v size) = true) ∧
    (∀ (v : Int) (size : Nat), v < 0 →
      isError (UnsignedIntegerTransactionData.generate v size) = true) ∧
    (∀ (size v : Nat), (size = 1 ∨ size = 2 ∨ size = 4) → 2 ^ (8 * size) ≤ v →
      isError (UnsignedIntegerTransactionData.generate v size) = true) := by
  have hbytes : ∀ (size v : Nat), (size = 1 ∨ size = 2 ∨ size = 4) → v < 2 ^ (8 * size) →
      make_response_data .unsignedInt (toBytesBE size v) = .ok (.uint v size) := by
    intro size v hs hv
    have h256 : v < 256 ^ size := by
      rcases hs with rfl | rfl | rfl <;> norm_num at hv ⊢ <;> omega
    simp [make_response_data, fromBytesBE_toBytesBE size v h256, toBytesBE_length]
  refine ⟨fun size v hs hv => ?_, fun v size h1 h2 h4 => ?_, fun v size hv => ?_,
    fun size v hs hv => ?_⟩
  · refine ⟨?_, toBytesBE_length size v, hbytes size v hs hv⟩
    rcases hs with rfl | rfl | rfl <;>
      · simp only [UnsignedIntegerTransactionData.generate]
        norm_num at hv ⊢
        rw [if_neg (by omega), if_neg (by omega)]
  · simp [UnsignedIntegerTransactionData.generate, h1, h2, h4, isError]
  · rcases Decidable.em (size = 1 ∨ size = 2 ∨ size = 4) with hs | hs
    · rcases hs with rfl | rfl | rfl <;>
        simp [UnsignedIntegerTransactionData.generate, hv, isError]
    · push_neg at hs
      simp [UnsignedIntegerTransactionData.generate, hs.1, hs.2.1, hs.2.2, isError]
  · rcases hs with rfl | rfl | rfl <;>
      · simp only [UnsignedIntegerTransactionData.generate, isError]
        norm_num at hv ⊢
        rw [if_neg (by omega), if_pos (by omega)]
  
/-- C3 witness: value 300 with size 2 encodes to tag `0xF9` and bytes
`[1, 44]`, decodes back to 300; size 3 and value 256 at size 1 both raise. -/
theorem uint_roundtrip_witness :
    (UnsignedIntegerTransactionData.generate 300 2 = .ok (0xF9, toBytesBE 2 300) ∧
      (toBytesBE 2 300).length = 2 ∧
      make_response_data .unsignedInt (toBytesBE 2 300) = .ok (.uint 300 2)) ∧
    isError (UnsignedIntegerTransactionData.generate 300 3) = true ∧
    isError (UnsignedIntegerTransactionData.generate (-1) 2) = true ∧
    isError (UnsignedIntegerTransactionData.generate 256 1) = true := by
  refine ⟨uint_roundtrip.1 2 300 (by norm_num) (by norm_num), ?_, ?_, ?_⟩
  · exact uint_roundtrip.2.1 300 3 (by norm_num) (by norm_num) (by norm_num)
  · exact uint_roundtrip.2.2.1 (-1) 2 (by norm_num)
  · exact uint_roundtrip.2.2.2 1 256 (Or.inl rfl) (by norm_num)

/-- C6 (amended): for every inbound frame whose type tag is a member of
`TransactionDataType` but not one of the supported value tags
(UNSIGNED_INT, PACKED, STRING, BOOLEAN, FLOAT), decoding yields the Empty
case and never fails, and such a frame is parsed and queued for delivery;
this covers exactly the member tags NULL `0xFF`, RESERVED `0xFE`, DOUBLE
`0xFB` and SIGNED_INT `0xFA`. (A type-tag byte outside the enum is instead
dropped by the parser; see the counterexample.) -/
theorem unsupported_tag_empty :
    (∀ (t : TransactionDataType), t ≠ .unsignedInt → t ≠ .packed → t ≠ .string →
      t ≠ .boolean → t ≠ .float →
      ∀ data : List Nat, make_response_data t data = .ok .empty) ∧
    (∀ (t : TransactionDataType), t ≠ .unsignedInt → t ≠ .packed → t ≠ .string →
      t ≠ .boolean → t ≠ .float →
      t = .null ∨ t = .reserved ∨ t = .double ∨ t = .signedInt) ∧
    (parse_all_frames nullTagFrame).unsolicited =
      [.unsolicited .null 0x0010 []] ∧
    make_response_data .null [] = .ok .empty := by
  refine ⟨fun t h1 h2 h3 h4 h5 data => ?_, fun t h1 h2 h3 h4 h5 => ?_, by decide, rfl⟩
  · cases t <;> simp_all [make_response_data]
  · cases t <;> simp_all

/-- C6 witness: the RESERVED tag `0xFE` decodes any payload to the Empty
case. -/
theorem unsupported_tag_empty_witness :
    make_response_data .reserved [1, 2, 3] = .ok .empty :=
  unsupported_tag_empty.1 .reserved (by decide) (by decide) (by decide) (by decide)
    (by decide) [1, 2, 3]

/-- C6 counterexample: a CRC-valid inbound frame whose type-tag byte
`0x00` is not a member of `TransactionDataType` (and in particular not a
supported value tag) is not delivered at all: the enum conversion fails
inside `_try_parse_next_frame`, so the parser drops a byte and the frame
is discarded rather than delivered as `EmptyTransactionData`, contrary to
the claim. -/
theorem unknown_tag_dropped_counterexample :
    check_crc rawTagFrame = true ∧
    rawTagFrame.getD 1 0 = 0x00 ∧
    byteToDataType 0x00 = none ∧
    (parse_all_frames rawTagFrame).responses = [] ∧
    (parse_all_frames rawTagFrame).unsolicited = [] := by
  refine ⟨by decide, by decide, rfl, by decide, by decide⟩

theorem tryParse_success_crc (buf : List Nat) (p : ParsedFrame) (t : Option Nat) (c : Nat)
    (h : tryParseNextFrame buf = (some p, t, c)) :
    check_crc (buf.take c) = true := by
  simp only [tryParseNextFrame] at h
  split at h
  · exact absurd h (by simp)
  · split at h
    · split at h
      · exact absurd h (by simp)
      · split at h
        · rename_i hcrc
          split at h
          · simp only [Prod.mk.injEq] at h
            rw [← h.2.2]
            exact hcrc
          · exact absurd h (by simp)
        · exact absurd h (by simp)
    · split at h
      · split at h
        · exact absurd h (by simp)
        · split at h
          · rename_i hcrc
            split at h
            · simp only [Prod.mk.injEq] at h
              rw [← h.2.2]
              exact hcrc
            · exact absurd h (by simp)
          · exact absurd h (by simp)
      · exact absurd h (by simp)

theorem parseAll_drop_one (accR accU : List ParsedFrame) (iters fuel : Nat)
    (buf : List Nat) (h8 : 8 ≤ buf.length) (t : Option Nat)
    (h : tryParseNextFrame buf = (none, t, 1)) :
    parseAllAux accR accU iters (fuel + 1) buf =
      parseAllAux accR accU (iters + 1) fuel (buf.drop 1) := by
  rw [parseAllAux]
  rw [if_neg (by omega), h]

theorem parseAllAux_iterations_le :
    ∀ (fuel : Nat) (buf : List Nat) (accR accU : List ParsedFrame) (iters : Nat),
      (parseAllAux accR accU iters fuel buf).iterations ≤ iters + fuel := by
  intro fuel
  induction fuel with
  | zero => intro buf accR accU iters; simp [parseAllAux]
  | succ fuel ih =>
    intro buf accR accU iters
    rw [parseAllAux]
    split
    · simp
    · split
      · simp
      · calc (parseAllAux accR accU (iters + 1) fuel (buf.drop 1)).iterations
            ≤ iters + 1 + fuel := ih ..
          _ = iters + (fuel + 1) := by omega
      · split
        · calc (parseAllAux _ accU (iters + 1) fuel _).iterations
              ≤ iters + 1 + fuel := ih ..
            _ = iters + (fuel + 1) := by omega
        · split
          · calc (parseAllAux accR _ (iters + 1) fuel _).iterations
                ≤ iters + 1 + fuel := ih ..
              _ = iters + (fuel + 1) := by omega
          · calc (parseAllAux accR accU (iters + 1) fuel _).iterations
                ≤ iters + 1 + fuel := ih ..
              _ = iters + (fuel + 1) := by omega

/-- C2 (amended): a candidate frame whose CRC check fails is never parsed
successfully (every successfully parsed frame has a valid CRC over exactly
its consumed bytes, and only successfully parsed frames are queued); on a
parse failure that consumes one byte the loop removes exactly one byte
from the buffer head and retries, so a well-formed frame located
immediately after a corrupted one can still be parsed in the same call
(exhibited concretely) — though not always: remnant bytes mimicking a
frame header with an oversized length stall the call first (see the
counterexample); and one `_parse_all_frames` call performs at most
`len(buffer)` parse iterations. -/
theorem parser_crc_resync :
    (∀ (buf : List Nat) (p : ParsedFrame) (t : Option Nat) (c : Nat),
      tryParseNextFrame buf = (some p, t, c) → check_crc (buf.take c) = true) ∧
    (∀ (accR accU : List ParsedFrame) (iters fuel : Nat) (buf : List Nat) (t : Option Nat),
      8 ≤ buf.length → tryParseNextFrame buf = (none, t, 1) →
      parseAllAux accR accU iters (fuel + 1) buf =
        parseAllAux accR accU (iters + 1) fuel (buf.drop 1)) ∧
    ((parse_all_frames (corruptLast goodFrame ++ goodFrame)).unsolicited =
        [.unsolicited .float 0x0003 [0x40, 0x40, 0x00, 0x00]] ∧
      (parse_all_frames (corruptLast goodFrame ++ goodFrame)).responses = [] ∧
      check_crc (corruptLast goodFrame) = false) ∧
    (∀ buf : List Nat, (parse_all_frames buf).iterations ≤ buf.length) := by
  refine ⟨tryParse_success_crc,
    fun accR accU iters fuel buf t h8 ht => parseAll_drop_one accR accU iters fuel buf h8 t ht,
    ⟨by decide, by decide, by decide⟩, fun buf => ?_⟩
  have h := parseAllAux_iterations_le buf.length buf [] [] 0
  simpa [parse_all_frames] using h

/-- C2 witness: the well-formed `goodFrame` parses with a valid CRC over
its 12 consumed bytes, and on the corrupted-head buffer the loop removes
exactly one byte and retries. -/
theorem parser_crc_resync_witness :
    check_crc (goodFrame.take 12) = true ∧
    parseAllAux [] [] 0 24 (corruptLast goodFrame ++ goodFrame) =
      parseAllAux [] [] 1 23 ((corruptLast goodFrame ++ goodFrame).drop 1) :=
  ⟨parser_crc_resync.1 goodFrame
      (.unsolicited .float 0x0003 [0x40, 0x40, 0x00, 0x00]) (some 0x02) 12 (by decide),
    parser_crc_resync.2.1 [] [] 0 23 (corruptLast goodFrame ++ goodFrame) none
      (by decide) (by decide)⟩

/-- C2 counterexample: `goodStallFrame` is well-formed (alone it parses and
is queued), but placed immediately after a copy of itself with a corrupted
trailing CRC byte, one `_parse_all_frames` call delivers nothing at all:
the resynchronization scan hits the remnant byte `0x02` of the corrupted
frame's control word, reads a bogus 0xC000-byte length, concludes the
frame is incomplete and stops — so the well-formed frame located
immediately after a corrupted one is not parsed, contrary to the claim. -/
theorem parser_resync_stall_counterexample :
    check_crc goodStallFrame = true ∧
    (parse_all_frames goodStallFrame).unsolicited =
      [.unsolicited .float 0x0002 [0x3F, 0xC0, 0x00, 0x00]] ∧
    check_crc (corruptLast goodStallFrame) = false ∧
    (parse_all_frames (corruptLast goodStallFrame ++ goodStallFrame)).responses = [] ∧
    (parse_all_frames (corruptLast goodStallFrame ++ goodStallFrame)).unsolicited = [] := by
  exact ⟨by decide, by decide, by decide, by decide, by decide⟩

theorem assembleExecuteFrame_isOk (control tag : Nat) (payload : List Nat) (uid : Nat)
    (hc : control < 65536) (ht : tag < 256) (hp : payload.length < 65536)
    (hu : uid < 65536) :
    ∃ f, assembleExecuteFrame control tag payload uid = .ok f := by
  unfold assembleExecuteFrame pyToBytesBE
  rw [if_pos (by norm_num; omega), if_pos (by norm_num; omega),
    if_pos (by norm_num; omega), if_pos (by norm_num; omega)]
  exact ⟨_, rfl⟩

theorem executeAttemptsAux_spec (control tag : Nat) (payload : List Nat)
    (hc : control < 65536) (ht : tag < 256) (hp : payload.length < 65536) :
    ∀ (n u0 : Nat),
      (executeAttemptsAux control tag payload u0 n).1 =
        (List.range n).map (fun i => (u0 + 1 + i) % 65536) ∧
      (executeAttemptsAux control tag payload u0 n).2.1.length = n ∧
      (executeAttemptsAux control tag payload u0 n).2.2 = none := by
  intro n
  induction n with
  | zero => intro u0; exact ⟨rfl, rfl, rfl⟩
  | succ n ih =>
    intro u0
    have hu : (u0 + 1) % 65536 < 65536 := Nat.mod_lt _ (by norm_num)
    obtain ⟨f, hf⟩ := assembleExecuteFrame_isOk control tag payload ((u0 + 1) % 65536)
      hc ht hp hu
    have hstep : executeAttemptsAux control tag payload u0 (n + 1) =
        ((u0 + 1) % 65536 :: (executeAttemptsAux control tag payload ((u0 + 1) % 65536) n).1,
          f :: (executeAttemptsAux control tag payload ((u0 + 1) % 65536) n).2.1,
          (executeAttemptsAux control tag payload ((u0 + 1) % 65536) n).2.2) := by
      rw [executeAttemptsAux]
      simp only [SerialUidController.new, hf]
    obtain ⟨ih1, ih2, ih3⟩ := ih ((u0 + 1) % 65536)
    refine ⟨?_, ?_, ?_⟩
    · rw [hstep]
      simp only [ih1, List.range_succ_eq_map, List.map_cons, List.map_map]
      refine List.cons_eq_cons.mpr ⟨by norm_num, ?_⟩
      refine List.map_congr_left fun i _ => ?_
      simp only [Function.comp_apply]
      rw [add_assoc, Nat.mod_add_mod]
      congr 1
      omega
    · rw [hstep]
      simp [ih2]
    · rw [hstep]
      simpa using ih3

theorem uid_window_nodup (u0 n : Nat) (hn : n ≤ 65536) :
    ((List.range n).map (fun i => (u0 + 1 + i) % 65536)).Nodup := by
  refine List.Nodup.map_on ?_ (List.nodup_range n)
  intro x hx y hy hxy
  have hx' : x < 65536 := lt_of_lt_of_le (List.mem_range.mp hx) hn
  have hy' : y < 65536 := lt_of_lt_of_le (List.mem_range.mp hy) hn
  have hmod : x ≡ y [MOD 65536] := Nat.ModEq.add_left_cancel' (u0 + 1) hxy
  have h2 : x % 65536 = y % 65536 := hmod
  rwa [Nat.mod_eq_of_lt hx', Nat.mod_eq_of_lt hy'] at h2

/-- C1 (amended): with no response ever delivered, `execute` performs
exactly `retry + 1` send attempts, each minting a fresh uid — the
successive values of the mod-65536 counter, pairwise distinct whenever
`retry + 1` does not exceed the counter period — and after the last
attempt raises a `TimeoutError` whose message reports the number of
attempts (`retry + 1`), not the control word. -/
theorem execute_no_response_attempts (control tag : Nat) (payload : List Nat)
    (retry u0 : Nat) (hc : control < 65536) (ht : tag < 256)
    (hp : payload.length < 65536) (hr : retry ≤ 65535) :
    (executeNoResponse control tag payload retry u0).uids.length = retry + 1 ∧
    (executeNoResponse control tag payload retry u0).frames.length = retry + 1 ∧
    (executeNoResponse control tag payload retry u0).uids =
      (List.range (retry + 1)).map (fun i => (u0 + 1 + i) % 65536) ∧
    (executeNoResponse control tag payload retry u0).uids.Nodup ∧
    (executeNoResponse control tag payload retry u0).raised =
      .timeoutError ("No response after " ++ toString (retry + 1) ++ " retries") := by
  obtain ⟨h1, h2, h3⟩ :=
    executeAttemptsAux_spec control tag payload hc ht hp (retry + 1) u0
  have huids : (executeNoResponse control tag payload retry u0).uids =
      (List.range (retry + 1)).map (fun i => (u0 + 1 + i) % 65536) := by
    simp only [executeNoResponse]
    exact h1
  refine ⟨?_, ?_, huids, ?_, ?_⟩
  · rw [huids]; simp
  · simp only [executeNoResponse]
    exact h2
  · rw [huids]
    exact uid_window_nodup u0 (retry + 1) (by omega)
  · simp only [executeNoResponse, h3, Option.getD_none]

/-- C1 witness: with `retry = 1` and counter state 0, the run makes two
attempts with distinct uids 1 and 2 and raises the timeout error naming
the two attempts. -/
theorem execute_no_response_attempts_witness :
    (executeNoResponse 5 0xFF [] 1 0).uids.length = 2 ∧
    (executeNoResponse 5 0xFF [] 1 0).frames.length = 2 ∧
    (executeNoResponse 5 0xFF [] 1 0).uids = [1, 2] ∧
    (executeNoResponse 5 0xFF [] 1 0).uids.Nodup ∧
    (executeNoResponse 5 0xFF [] 1 0).raised =
      .timeoutError ("No response after " ++ toString 2 ++ " retries") := by
  obtain ⟨h1, h2, h3, h4, h5⟩ :=
    execute_no_response_attempts 5 0xFF [] 1 0 (by norm_num) (by norm_num)
      (by norm_num) (by norm_num)
  exact ⟨h1, h2, by rw [h3]; decide, h4, h5⟩

/-- C1 counterexample: the raised timeout error is identical for the
distinct control words 5 and 6 (its message names only the attempt count),
so it cannot identify the control word, contrary to the claim. -/
theorem execute_timeout_message_counterexample :
    (5 : Nat) ≠ 6 ∧
    (executeNoResponse 5 0xFF [] 0 0).raised = (executeNoResponse 6 0xFF [] 0 0).raised ∧
    (executeNoResponse 5 0xFF [] 0 0).raised =
      .timeoutError "No response after 1 retries" := by
  exact ⟨by decide, by decide, by decide⟩

/-- C4 (amended): every fault of the real-mode startup handshake — an
unexpected response data type for the name, firmware-version or watchdog
query, or a parsed firmware version exceeding `MAX_VERSION` — raises a
`MotorInitializationFault` and leaves the watchdog-feeder thread
unstarted; the firmware-version fault additionally stops the connection,
while the three unexpected-type faults leave it running (`self.stop()` is
only called on the version path). -/
theorem start_fault_behavior :
    (∀ (nr fr wr : TransactionResult), nr.data.isStr = false →
      (KevinbotMC.start nr fr wr).outcome.isInitFault = true ∧
      (KevinbotMC.start nr fr wr).connectionStopped = false ∧
      (KevinbotMC.start nr fr wr).watchdogStarted = false) ∧
    (∀ (nr fr wr : TransactionResult), nr.data.isStr = true → fr.data.isStr = false →
      (KevinbotMC.start nr fr wr).outcome.isInitFault = true ∧
      (KevinbotMC.start nr fr wr).connectionStopped = false ∧
      (KevinbotMC.start nr fr wr).watchdogStarted = false) ∧
    (∀ (nr fr wr : TransactionResult) (s : String) (fw : Nat × Nat × Nat),
      nr.data.isStr = true → fr.data = .str s → semverParse s = some fw →
      wr.data.isUint = false →
      (KevinbotMC.start nr fr wr).outcome.isInitFault = true ∧
      (KevinbotMC.start nr fr wr).connectionStopped = false ∧
      (KevinbotMC.start nr fr wr).watchdogStarted = false) ∧
    (∀ (nr fr wr : TransactionResult) (s : String) (fw : Nat × Nat × Nat),
      nr.data.isStr = true → fr.data = .str s → semverParse s = some fw →
      wr.data.isUint = true → versionLt MAX_VERSION fw = true →
      (KevinbotMC.start nr fr wr).outcome.isInitFault = true ∧
      (KevinbotMC.start nr fr wr).connectionStopped = true ∧
      (KevinbotMC.start nr fr wr).watchdogStarted = false) := by
  refine ⟨fun nr fr wr hn => ?_, fun nr fr wr hn hf => ?_,
    fun nr fr wr s fw hn hf hp hw => ?_, fun nr fr wr s fw hn hf hp hw hv => ?_⟩
  · simp [KevinbotMC.start, hn, StartOutcome.isInitFault]
  · cases hd : fr.data <;>
      simp_all [KevinbotMC.start, TransactionData.isStr, StartOutcome.isInitFault]
  · simp [KevinbotMC.start, hn, hf, hp, hw, StartOutcome.isInitFault]
  · simp [KevinbotMC.start, hn, hf, hp, hw, hv, StartOutcome.isInitFault]

/-- C4 witness: a handshake whose firmware query answers version
`3000.0.0` (above the supported maximum 2025.11.9999) with well-typed name
and watchdog responses raises the initialization fault, stops the
connection, and starts no watchdog thread. -/
theorem start_fault_behavior_witness :
    (KevinbotMC.start ⟨0x7FF8, .str "LeftMotor", .ok⟩
        ⟨0x7FFC, .str "3000.0.0", .ok⟩
        ⟨0x4000, .uint 200 2, .ok⟩).outcome.isInitFault = true ∧
    (KevinbotMC.start ⟨0x7FF8, .str "LeftMotor", .ok⟩
        ⟨0x7FFC, .str "3000.0.0", .ok⟩
        ⟨0x4000, .uint 200 2, .ok⟩).connectionStopped = true ∧
    (KevinbotMC.start ⟨0x7FF8, .str "LeftMotor", .ok⟩
        ⟨0x7FFC, .str "3000.0.0", .ok⟩
        ⟨0x4000, .uint 200 2, .ok⟩).watchdogStarted = false := by
  exact start_fault_behavior.2.2.2 ⟨0x7FF8, .str "LeftMotor", .ok⟩
    ⟨0x7FFC, .str "3000.0.0", .ok⟩ ⟨0x4000, .uint 200 2, .ok⟩
    "3000.0.0" (3000, 0, 0) rfl rfl (by decide) rfl (by decide)

/-- C4 counterexample: a name query answered with `EmptyTransactionData`
raises a `MotorInitializationFault`, but the connection is not stopped
(`connectionStopped = false`), contradicting the claim that every
handshake fault fully stops the connection. -/
theorem start_fault_stop_counterexample :
    (KevinbotMC.start ⟨0x7FF8, .empty, .ok⟩
        ⟨0x7FFC, .str "1.2.0", .ok⟩
        ⟨0x4000, .uint 200 2, .ok⟩).outcome.isInitFault = true ∧
    (KevinbotMC.start ⟨0x7FF8, .empty, .ok⟩
        ⟨0x7FFC, .str "1.2.0", .ok⟩
        ⟨0x4000, .uint 200 2, .ok⟩).connectionStopped = false := by
  exact ⟨rfl, rfl⟩

theorem set_sends_mem (oracle : Nat → TransactionResult) (control : MotorControl)
    (st : MCControlState) :
    ∀ w ∈ (KevinbotMC.set false oracle control st).2,
      (w = 0x0006 ∧ control.kind ≠ st.currentControl.kind) ∨
      (w = 0x0005 ∧ control.target ≠ st.currentControl.target) ∨
      (w = 0x0007 ∧ MotorControl.eq control st.currentControl = false) := by
  intro w hw
  rcases hg : UnsignedIntegerTransactionData.generate control.index 1 with e | a <;>
  by_cases hk : control.kind = st.currentControl.kind <;>
  by_cases h6 : (oracle 0x0006).data.isUint = true <;>
  by_cases ht : control.target = st.currentControl.target <;>
  by_cases h5 : (oracle 0x0005).data.isFloat = true <;>
  by_cases he : MotorControl.eq control st.currentControl = false <;>
  by_cases h7 : (oracle 0x0007).data.isEmpty = true <;>
  simp only [KevinbotMC.set, hg, hk, h6, ht, h5, he, h7, Bool.false_eq_true, if_false,
    if_true, ite_true, ite_false, ne_eq, not_true_eq_false, not_false_eq_true, reduceIte,
    Bool.not_eq_true, Bool.not_eq_false, List.mem_singleton, List.mem_cons,
    List.not_mem_nil, List.mem_append, List.append_nil, List.nil_append] at hw <;>
  simp_all <;> omega

theorem set_ok_state (isSim : Bool) (oracle : Nat → TransactionResult)
    (control : MotorControl) (st st' : MCControlState)
    (h : (KevinbotMC.set isSim oracle control st).1 = .ok st') :
    st' = ⟨control, control.target⟩ := by
  cases isSim
  · rcases hg : UnsignedIntegerTransactionData.generate control.index 1 with e | a <;>
    by_cases hk : control.kind = st.currentControl.kind <;>
    by_cases h6 : (oracle 0x0006).data.isUint = true <;>
    by_cases ht : control.target = st.currentControl.target <;>
    by_cases h5 : (oracle 0x0005).data.isFloat = true <;>
    by_cases he : MotorControl.eq control st.currentControl = false <;>
    by_cases h7 : (oracle 0x0007).data.isEmpty = true <;>
    simp only [KevinbotMC.set, hg, hk, h6, ht, h5, he, h7, Bool.false_eq_true, if_false,
      if_true, ite_true, ite_false, ne_eq, not_true_eq_false, not_false_eq_true, reduceIte,
      Bool.not_eq_true, Bool.not_eq_false] at h <;>
    simp_all
  · simp only [KevinbotMC.set, if_true] at h
    simp_all

theorem set_eq_skip (oracle : Nat → TransactionResult) (control : MotorControl)
    (st : MCControlState) (he : MotorControl.eq control st.currentControl = true) :
    KevinbotMC.set false oracle control st = (.ok ⟨control, control.target⟩, []) := by
  have hidx : control.index = st.currentControl.index ∧
      control.target = st.currentControl.target := by
    simpa [MotorControl.eq] using he
  have hk : control.kind = st.currentControl.kind :=
    ControlKind.index_injective control.kind st.currentControl.kind hidx.1
  simp [KevinbotMC.set, hk, hidx.2, he]

/-- C5: in real mode `set(control)` sends the mode-change transaction
`0x0006` only when the control's class differs from the cached one's, the
target-change transaction `0x0005` only when the targets differ, and the
apply transaction `0x0007` only when the controls differ under
`MotorControl.__eq__`; a value-equal control (such as a second consecutive
`set` with an identical value) sends zero transactions; and in every mode,
whenever `set` returns, the cached current control and `signals.target`
hold the argument's values. -/
theorem set_dedup :
    (∀ (oracle : Nat → TransactionResult) (control : MotorControl) (st : MCControlState),
      (0x0006 ∈ (KevinbotMC.set false oracle control st).2 →
        control.kind ≠ st.currentControl.kind) ∧
      (0x0005 ∈ (KevinbotMC.set false oracle control st).2 →
        control.target ≠ st.currentControl.target) ∧
      (0x0007 ∈ (KevinbotMC.set false oracle control st).2 →
        MotorControl.eq control st.currentControl = false) ∧
      (MotorControl.eq control st.currentControl = true →
        KevinbotMC.set false oracle control st = (.ok ⟨control, control.target⟩, []))) ∧
    (∀ (isSim : Bool) (oracle : Nat → TransactionResult) (control : MotorControl)
      (st st' : MCControlState),
      (KevinbotMC.set isSim oracle control st).1 = .ok st' →
      st'.currentControl = control ∧ st'.signalsTarget = control.target) := by
  constructor
  · intro oracle control st
    refine ⟨fun h => ?_, fun h => ?_, fun h => ?_, set_eq_skip oracle control st⟩
    · rcases set_sends_mem oracle control st _ h with ⟨_, hne⟩ | ⟨habs, _⟩ | ⟨habs, _⟩ <;>
        simp_all
    · rcases set_sends_mem oracle control st _ h with ⟨habs, _⟩ | ⟨_, hne⟩ | ⟨habs, _⟩ <;>
        simp_all
    · rcases set_sends_mem oracle control st _ h with ⟨habs, _⟩ | ⟨habs, _⟩ | ⟨_, hne⟩ <;>
        simp_all
  · intro isSim oracle control st st' h
    have hst := set_ok_state isSim oracle control st st' h
    subst hst
    exact ⟨rfl, rfl⟩

/-- C5 witness: a `set` with a `VelocityControl(3.0)` value equal to the
cached control sends zero transactions, returns, and leaves the cached
control and target at the argument's values. -/
theorem set_dedup_witness :
    KevinbotMC.set false (fun _ => ⟨0, .empty, .ok⟩) (VelocityControl 3)
        ⟨VelocityControl 3, 3⟩ = (.ok ⟨VelocityControl 3, 3⟩, []) ∧
    ((⟨VelocityControl 3, 3⟩ : MCControlState).currentControl = VelocityControl 3 ∧
      (⟨VelocityControl 3, 3⟩ : MCControlState).signalsTarget = (VelocityControl 3).target) := by
  have h1 := (set_dedup.1 (fun _ => ⟨0, .empty, .ok⟩) (VelocityControl 3)
    ⟨VelocityControl 3, 3⟩).2.2.2 (by simp [MotorControl.eq])
  refine ⟨h1, set_dedup.2 false (fun _ => ⟨0, .empty, .ok⟩) (VelocityControl 3)
    ⟨VelocityControl 3, 3⟩ ⟨VelocityControl 3, 3⟩ ?_⟩
  rw [h1]
  rfl

/-- C8 witness: the equality characterization evaluated at concrete
velocity controls. -/
theorem motorcontrol_eq_iff_witness :
    MotorControl.eq (VelocityControl 3) (VelocityControl 3) = true :=
  motorcontrol_eq_iff.2.1

/-- C10 witness: the two encoders agree on a concrete frame. -/
theorem frame_encoders_equivalent_witness :
    assembleExecuteFrame 5 0xFF [] 1 = make_transaction_data 5 0xFF [] 1 :=
  frame_encoders_equivalent 5 0xFF [] 1
